import Mathlib

/-!
Shallow embedding of the Telegram Mini App session client
(`src/unnamed/part_000`).  The module-level mutable state of the script
(the `sessionToken` variable, the cached DOM nodes and the persisted
`astra_session` storage entry) is modelled as an explicit record
`ClientState`; each async operation of the script becomes a pure state
transformer that takes the outcome of its external interactions
(fetch responses, host-platform behaviour) as parameters.  Emitted
network requests and host-platform calls are accumulated in an event log.
-/

namespace AstraClient

/-- JavaScript truthiness of a possibly-absent string value:
`undefined`/`null` and the empty string are falsy. -/
def jstruthy (o : Option String) : Bool :=
  match o with
  | none => false
  | some s => if s = "" then false else true

/-- JavaScript `o || d` for a possibly-absent string `o` and a string
default `d`. -/
def jsOr (o : Option String) (d : String) : String :=
  match o with
  | none => d
  | some s => if s = "" then d else s

/-- JavaScript `o || null`: normalizes absent and empty strings to
absent (`data.session || null`, line 167). -/
def jsToOpt (o : Option String) : Option String :=
  if jstruthy o then o else none

/-- Rendering of a possibly-absent numeric JSON field inside a template
literal: `undefined` renders as the string "undefined". -/
def jsShowNum (o : Option Int) : String :=
  match o with
  | none => "undefined"
  | some n => toString n

/-- A purchasable pack as delivered in the auth response
(`packages:[{key,spreads,stars}]`). -/
structure Pack where
  key : String
  spreads : Int
  stars : Int
  deriving Repr, DecidableEq

/-- Network requests and host-platform calls the script can emit. -/
inductive Event where
  | reqAuth (initData : String)
  | reqBalance (session : String)
  | reqInvoice (session : String) (packKey : String)
  | openInvoiceNative (link : String)
  | openExternalLink (link : String)
  deriving Repr, DecidableEq

/-- The script's mutable state: the module-level `sessionToken`
variable, the `astra_session` local-storage slot, the text content of
the cached DOM nodes, the visibility of the error box, and the log of
emitted external calls. -/
structure ClientState where
  sessionToken : Option String
  storage : Option String
  balanceText : String
  refLink : String
  packs : List Pack
  diagTg : String
  diagUser : String
  diagErr : String
  errorVisible : Bool
  supportHref : String
  log : List Event
  deriving Repr, DecidableEq

/-- Module initialization (`let sessionToken = null`, line 15): the
session variable starts `null`; whatever value local storage may hold
from a previous run is never read. -/
def initialState (storedSession : Option String) : ClientState :=
  { sessionToken := none
    storage := storedSession
    balanceText := ""
    refLink := ""
    packs := []
    diagTg := ""
    diagUser := ""
    diagErr := ""
    errorVisible := false
    supportHref := ""
    log := [] }

/-- `setError` (line 24): writes the diagnostic line
with the fixed "error: " prefix, rendering a falsy argument as an
em-dash. -/
def setError (st : ClientState) (text : String) : ClientState :=
  { st with diagErr := "error: " ++ (if text = "" then "—" else text) }

/-- `showError` (line 28): unhides the error box. -/
def showError (st : ClientState) : ClientState :=
  { st with errorVisible := true }

/-- Appends an emitted network request or host call to the log. -/
def logEvent (st : ClientState) (e : Event) : ClientState :=
  { st with log := st.log ++ [e] }

/-- Outcome of an awaited `fetch` + `resp.json()` pair, as seen by the
caller: either parsed data, or a thrown transport/parse error whose
message string is recorded. -/
inductive FetchOutcome (α : Type) where
  | success (data : α)
  | failure (errMsg : String)
  deriving Repr, DecidableEq

/-- Parsed body of a `POST /api/balance` response. -/
structure BalanceData where
  ok : Bool
  balance : Option Int
  deriving Repr, DecidableEq

/-- `refreshBalance` (lines 51-66): silently returns when the session
variable is falsy; otherwise issues the balance request and, on an `ok`
response, rewrites the balance text; a thrown error only sets the
diagnostic line; an `ok:false` response is left without any handling. -/
def refreshBalance (st : ClientState) (outcome : FetchOutcome BalanceData) :
    ClientState :=
  match st.sessionToken with
  | none => st
  | some tok =>
    if tok = "" then st
    else
      let st1 := logEvent st (.reqBalance tok)
      match outcome with
      | .success data =>
          if data.ok then
            { st1 with balanceText := jsShowNum data.balance ++ " раскладов" }
          else st1
      | .failure e => setError st1 ("balance refresh failed: " ++ e)

/-- Parsed body of a `POST /api/invoice` response. -/
structure InvoiceData where
  ok : Bool
  invoice_link : Option String
  message : Option String
  deriving Repr, DecidableEq

/-- The channel through which the host platform delivers a payment
status update for an opened invoice: the callback passed to
`openInvoice`, or the promise `openInvoice` may return. -/
inductive Channel where
  | callback
  | promise
  deriving Repr, DecidableEq

/-- One payment-status delivery by the host platform, together with the
fetch outcome the balance-refresh request would receive were it issued
in response to this delivery. -/
structure StatusDelivery where
  channel : Channel
  status : String
  refreshOutcome : FetchOutcome BalanceData
  deriving Repr, DecidableEq

/-- The status handler installed by `createInvoice` (lines 91-97, and
identically lines 100-107 for the promise): on "paid" it runs
`refreshBalance`, on "cancelled"/"failed" it surfaces
`invoice <status>`, and it ignores every other status. -/
def onInvoiceStatus (st : ClientState) (status : String)
    (ro : FetchOutcome BalanceData) : ClientState :=
  if status = "paid" then refreshBalance st ro
  else if status = "cancelled" ∨ status = "failed" then
    showError (setError st ("invoice " ++ status))
  else st

/-- Runs the installed handlers over the host's status deliveries, in
order.  Deliveries via the callback are always handled; deliveries via
the returned promise are handled only when the return value of
`openInvoice` was thenable (lines 99-108), since only then is a `.then`
handler attached. -/
def processDeliveries (thenable : Bool) :
    ClientState → List StatusDelivery → ClientState
  | st, [] => st
  | st, d :: ds =>
    let st1 :=
      match d.channel with
      | .callback => onInvoiceStatus st d.status d.refreshOutcome
      | .promise =>
          if thenable then onInvoiceStatus st d.status d.refreshOutcome else st
    processDeliveries thenable st1 ds

/-- The host platform's behaviour during one `createInvoice` call:
whether `tg.openInvoice` exists, whether calling it throws (with the
thrown message), whether its return value is thenable, and the
payment-status deliveries it makes. -/
structure HostBehavior where
  hasOpenInvoice : Bool
  openThrows : Option String
  thenable : Bool
  deliveries : List StatusDelivery
  deriving Repr, DecidableEq

/-- `createInvoice` (lines 68-118): fails fast with "no session" when
the session variable is falsy; otherwise issues the invoice request; on
a thrown transport/parse error or a non-ok / linkless response it
surfaces a diagnostic; on success it hands the link to
`tg.openInvoice` when available (falling back to
`tg.openTelegramLink` otherwise, or after `openInvoice` throws) and
handles the host's status deliveries. -/
def createInvoice (st : ClientState) (packKey : String)
    (outcome : FetchOutcome InvoiceData) (host : HostBehavior) : ClientState :=
  match st.sessionToken with
  | none => showError (setError st "no session")
  | some tok =>
    if tok = "" then showError (setError st "no session")
    else
      let st1 := logEvent st (.reqInvoice tok packKey)
      match outcome with
      | .failure e => showError (setError st1 ("invoice error: " ++ e))
      | .success data =>
        if !data.ok ∨ !(jstruthy data.invoice_link) then
          showError (setError st1 (jsOr data.message "invoice failed"))
        else
          let link := data.invoice_link.getD ""
          if !host.hasOpenInvoice then
            logEvent st1 (.openExternalLink link)
          else
            match host.openThrows with
            | some emsg =>
                logEvent
                  (showError (setError st1 ("openInvoice failed: " ++ emsg)))
                  (.openExternalLink link)
            | none =>
                processDeliveries host.thenable
                  (logEvent st1 (.openInvoiceNative link)) host.deliveries

/-- The host-platform context as seen by `auth`: the init-data string,
the id of the unsafe user object when present, and whether
`tg.ready()` / `tg.expand()` throw. -/
structure TgCtx where
  initData : String
  userId : Option Int
  readyExpandThrows : Option String
  deriving Repr, DecidableEq

/-- `setDiag` (lines 17-22): records host availability and the user id
(`tg?.initDataUnsafe?.user?.id || "—"`, so an absent or zero id renders
as an em-dash). -/
def setDiag (st : ClientState) (tg : Option TgCtx) : ClientState :=
  { st with
    diagTg := "tg available: " ++ (if tg.isSome then "yes" else "no")
    diagUser := "user id: " ++
      (match tg with
       | some t =>
         match t.userId with
         | some i => if i = 0 then "—" else toString i
         | none => "—"
       | none => "—") }

/-- Parsed body of a `POST /api/auth` response. -/
structure AuthData where
  ok : Bool
  error : Option String
  message : Option String
  session : Option String
  balance : Option Int
  ref_link : Option String
  packages : Option (List Pack)
  support_link : Option String
  deriving Repr, DecidableEq

/-- Outcome of the auth fetch (lines 134-158): the fetch itself may
throw; otherwise the body text may fail to parse as JSON (the HTTP
status, the parse error message and the raw text feed the diagnostic);
otherwise parsed data is available. -/
inductive AuthFetchOutcome where
  | fetchError (errMsg : String)
  | badJson (status : String) (errMsg : String) (rawText : String)
  | parsed (data : AuthData)
  deriving Repr, DecidableEq

/-- `renderPacks` (lines 32-49): replaces the displayed pack list. -/
def renderPacks (st : ClientState) (ps : List Pack) : ClientState :=
  { st with packs := ps }

/-- The success tail of `auth` (lines 167-180): the session variable is
set to `data.session || null`; when truthy it is persisted to the
`astra_session` slot, best-effort (`storageOk` false models a throwing
`localStorage.setItem`, which is ignored); then balance text, referral
field, pack list and support link are updated from the response. -/
def applyAuthSuccess (st : ClientState) (data : AuthData) (storageOk : Bool) :
    ClientState :=
  let tok := jsToOpt data.session
  let st3 := { st with sessionToken := tok }
  let st4 :=
    match tok with
    | some s => if storageOk then { st3 with storage := some s } else st3
    | none => st3
  let st5 := { st4 with balanceText := jsShowNum data.balance ++ " раскладов" }
  let st6 := { st5 with refLink := jsOr data.ref_link "—" }
  let st7 := renderPacks st6 (data.packages.getD [])
  match data.support_link with
  | some sl => if sl = "" then st7 else { st7 with supportHref := sl }
  | none => st7

/-- `auth` (lines 120-181): shows the error box and stops when the host
context or its init-data is missing; a throwing `ready`/`expand` only
sets the diagnostic; fetch and JSON-parse failures surface diagnostics
and stop; an `ok:false` body surfaces the server error code/message and
stops; on success the session variable is set to `data.session || null`,
a truthy session is persisted best-effort, and balance text, referral
field, pack list and support link are updated. -/
def auth (st : ClientState) (tg : Option TgCtx) (outcome : AuthFetchOutcome)
    (storageOk : Bool) : ClientState :=
  let st0 := setDiag st tg
  match tg with
  | none => showError st0
  | some t =>
    if t.initData = "" then showError st0
    else
      let st1 :=
        match t.readyExpandThrows with
        | some e => setError st0 ("tg init failed: " ++ e)
        | none => st0
      let st2 := logEvent st1 (.reqAuth t.initData)
      match outcome with
      | .fetchError e => showError (setError st2 ("fetch auth failed: " ++ e))
      | .badJson status errMsg rawText =>
          let preview := if rawText = "" then "empty" else rawText.take 200
          showError (setError st2
            ("bad json (status " ++ status ++ "): " ++ errMsg ++
              "; preview: " ++ preview))
      | .parsed data =>
        if !data.ok then
          let m :=
            match data.message with
            | some msg => if msg = "" then "" else " (" ++ msg ++ ")"
            | none => ""
          showError (setError st2 (jsOr data.error "auth_failed" ++ m))
        else applyAuthSuccess st2 data storageOk

/-- A user-or-platform-triggered operation of the client, with the
outcomes of its external interactions. -/
inductive Op where
  | opAuth (tg : Option TgCtx) (outcome : AuthFetchOutcome) (storageOk : Bool)
  | opRefresh (outcome : FetchOutcome BalanceData)
  | opInvoice (packKey : String) (outcome : FetchOutcome InvoiceData)
      (host : HostBehavior)
  deriving Repr, DecidableEq

/-- One step of the client: running one operation. -/
def step (st : ClientState) (o : Op) : ClientState :=
  match o with
  | .opAuth tg outcome storageOk => auth st tg outcome storageOk
  | .opRefresh outcome => refreshBalance st outcome
  | .opInvoice packKey outcome host => createInvoice st packKey outcome host

/-- Running a sequence of operations from a state. -/
def runOps (st : ClientState) : List Op → ClientState
  | [] => st
  | o :: os => runOps (step st o) os

/-- Number of balance requests in an event log. -/
def countBalanceReqs (log : List Event) : Nat :=
  (log.filter fun e =>
    match e with
    | .reqBalance _ => true
    | _ => false).length

/-- Deliveries whose status is "paid" and whose channel actually has a
handler attached (the callback always, the promise only when the
return value of `openInvoice` was thenable). -/
def countPaidProcessed (thenable : Bool) : List StatusDelivery → Nat
  | [] => 0
  | d :: ds =>
    (if d.status = "paid" ∧ (d.channel = .callback ∨ thenable) then 1 else 0) +
      countPaidProcessed thenable ds

@[simp] lemma sessionToken_setError (st : ClientState) (t : String) :
    (setError st t).sessionToken = st.sessionToken := rfl

@[simp] lemma log_setError (st : ClientState) (t : String) :
    (setError st t).log = st.log := rfl

@[simp] lemma balanceText_setError (st : ClientState) (t : String) :
    (setError st t).balanceText = st.balanceText := rfl

@[simp] lemma storage_setError (st : ClientState) (t : String) :
    (setError st t).storage = st.storage := rfl

@[simp] lemma errorVisible_setError (st : ClientState) (t : String) :
    (setError st t).errorVisible = st.errorVisible := rfl

@[simp] lemma sessionToken_showError (st : ClientState) :
    (showError st).sessionToken = st.sessionToken := rfl

@[simp] lemma log_showError (st : ClientState) :
    (showError st).log = st.log := rfl

@[simp] lemma diagErr_showError (st : ClientState) :
    (showError st).diagErr = st.diagErr := rfl

@[simp] lemma balanceText_showError (st : ClientState) :
    (showError st).balanceText = st.balanceText := rfl

@[simp] lemma storage_showError (st : ClientState) :
    (showError st).storage = st.storage := rfl

@[simp] lemma errorVisible_showError (st : ClientState) :
    (showError st).errorVisible = true := rfl

@[simp] lemma sessionToken_logEvent (st : ClientState) (e : Event) :
    (logEvent st e).sessionToken = st.sessionToken := rfl

@[simp] lemma log_logEvent (st : ClientState) (e : Event) :
    (logEvent st e).log = st.log ++ [e] := rfl

@[simp] lemma diagErr_logEvent (st : ClientState) (e : Event) :
    (logEvent st e).diagErr = st.diagErr := rfl

@[simp] lemma balanceText_logEvent (st : ClientState) (e : Event) :
    (logEvent st e).balanceText = st.balanceText := rfl

@[simp] lemma storage_logEvent (st : ClientState) (e : Event) :
    (logEvent st e).storage = st.storage := rfl

@[simp] lemma errorVisible_logEvent (st : ClientState) (e : Event) :
    (logEvent st e).errorVisible = st.errorVisible := rfl

@[simp] lemma sessionToken_setDiag (st : ClientState) (tg : Option TgCtx) :
    (setDiag st tg).sessionToken = st.sessionToken := rfl

@[simp] lemma log_setDiag (st : ClientState) (tg : Option TgCtx) :
    (setDiag st tg).log = st.log := rfl

@[simp] lemma diagErr_setDiag (st : ClientState) (tg : Option TgCtx) :
    (setDiag st tg).diagErr = st.diagErr := rfl

@[simp] lemma balanceText_setDiag (st : ClientState) (tg : Option TgCtx) :
    (setDiag st tg).balanceText = st.balanceText := rfl

@[simp] lemma storage_setDiag (st : ClientState) (tg : Option TgCtx) :
    (setDiag st tg).storage = st.storage := rfl

@[simp] lemma refLink_setDiag (st : ClientState) (tg : Option TgCtx) :
    (setDiag st tg).refLink = st.refLink := rfl

@[simp] lemma packs_setDiag (st : ClientState) (tg : Option TgCtx) :
    (setDiag st tg).packs = st.packs := rfl

@[simp] lemma errorVisible_setDiag (st : ClientState) (tg : Option TgCtx) :
    (setDiag st tg).errorVisible = st.errorVisible := rfl

lemma jsToOpt_ne_some_empty (o : Option String) : jsToOpt o ≠ some "" := by
  unfold jsToOpt jstruthy
  cases o with
  | none => simp
  | some s =>
    by_cases h : s = "" <;> simp [h]

lemma sessionToken_refreshBalance (st : ClientState)
    (out : FetchOutcome BalanceData) :
    (refreshBalance st out).sessionToken = st.sessionToken := by
  unfold refreshBalance
  split
  · rfl
  · split
    · rfl
    · split
      · split <;> rfl
      · rfl

lemma sessionToken_onInvoiceStatus (st : ClientState) (status : String)
    (ro : FetchOutcome BalanceData) :
    (onInvoiceStatus st status ro).sessionToken = st.sessionToken := by
  unfold onInvoiceStatus
  split
  · exact sessionToken_refreshBalance st ro
  · split <;> rfl

lemma sessionToken_processDeliveries (thenable : Bool)
    (ds : List StatusDelivery) (st : ClientState) :
    (processDeliveries thenable st ds).sessionToken = st.sessionToken := by
  induction ds generalizing st with
  | nil => rfl
  | cons d ds ih =>
    unfold processDeliveries
    refine (ih _).trans ?_
    cases d.channel with
    | callback => exact sessionToken_onInvoiceStatus ..
    | promise =>
      by_cases h : thenable <;> simp [h, sessionToken_onInvoiceStatus]

lemma sessionToken_createInvoice (st : ClientState) (k : String)
    (out : FetchOutcome InvoiceData) (host : HostBehavior) :
    (createInvoice st k out host).sessionToken = st.sessionToken := by
  unfold createInvoice
  split
  · rfl
  · split
    · rfl
    · split
      · rfl
      · split
        · rfl
        · split
          · rfl
          · split
            · rfl
            · exact (sessionToken_processDeliveries ..).trans rfl

lemma sessionToken_applyAuthSuccess (st : ClientState) (data : AuthData)
    (storageOk : Bool) :
    (applyAuthSuccess st data storageOk).sessionToken = jsToOpt data.session := by
  unfold applyAuthSuccess renderPacks
  cases h : jsToOpt data.session with
  | none =>
    cases data.support_link with
    | none => rfl
    | some sl => by_cases hsl : sl = "" <;> simp [hsl]
  | some s =>
    cases data.support_link with
    | none => by_cases hk : storageOk <;> simp [hk]
    | some sl =>
      by_cases hk : storageOk <;> by_cases hsl : sl = "" <;> simp [hk, hsl]

lemma sessionToken_auth_wf (st : ClientState) (tg : Option TgCtx)
    (out : AuthFetchOutcome) (storageOk : Bool)
    (h : st.sessionToken ≠ some "") :
    (auth st tg out storageOk).sessionToken ≠ some "" := by
  unfold auth
  split
  · simpa using h
  · split
    · simpa using h
    · split <;>
      · cases out with
        | fetchError e => simpa using h
        | badJson a b c => simpa using h
        | parsed data =>
          by_cases hok : data.ok
          · simp only [hok, Bool.not_true, Bool.false_eq_true, if_false,
              sessionToken_applyAuthSuccess]
            exact jsToOpt_ne_some_empty _
          · simpa [hok] using h

lemma append_ne_empty_left (a b : String) (h : a ≠ "") : a ++ b ≠ "" := by
  intro hab
  apply h
  have hd := congrArg String.data hab
  simp [String.data_append] at hd
  cases a
  simp_all [String.ext_iff]

lemma jsOr_ne_empty (o : Option String) (d : String) (hd : d ≠ "") :
    jsOr o d ≠ "" := by
  unfold jsOr
  cases o with
  | none => exact hd
  | some s => by_cases hs : s = "" <;> simp [hs, hd]

/-- C1: `createInvoice` in a state without a session issues no network
request, shows the error box, sets the diagnostic line to the fixed
message "no session" (rendered with the source's "error: " prefix),
and leaves the session token and the displayed balance unchanged. -/
theorem C1_createInvoice_without_session (st : ClientState) (k : String)
    (out : FetchOutcome InvoiceData) (host : HostBehavior)
    (h : st.sessionToken = none) :
    (createInvoice st k out host).log = st.log ∧
    (createInvoice st k out host).errorVisible = true ∧
    (createInvoice st k out host).diagErr = "error: " ++ "no session" ∧
    (createInvoice st k out host).sessionToken = none ∧
    (createInvoice st k out host).balanceText = st.balanceText := by
  unfold createInvoice
  rw [h]
  refine ⟨rfl, rfl, ?_, h, rfl⟩
  simp [setError, showError]

/-- Witness for C1 at a concrete state: the fresh startup state with no
session. -/
theorem C1_createInvoice_without_session_witness :
    (initialState none).sessionToken = none ∧
    (createInvoice (initialState none) "pack40"
        (FetchOutcome.success
          { ok := true, invoice_link := some "https://t.me/inv", message := none })
        { hasOpenInvoice := true, openThrows := none, thenable := false,
          deliveries := [] }).errorVisible = true :=
  ⟨rfl, (C1_createInvoice_without_session (initialState none) "pack40" _ _ rfl).2.1⟩

/-- C7: the payment-status handler installed by `createInvoice` shows
the error box with diagnostic "invoice cancelled" / "invoice failed" and
issues no balance refresh on those statuses, and leaves the state
entirely unchanged on any status other than "paid", "cancelled" and
"failed". -/
theorem C7_terminal_status_handler (st : ClientState)
    (ro : FetchOutcome BalanceData) (status other : String)
    (h : status = "cancelled" ∨ status = "failed")
    (ho : other ≠ "paid" ∧ other ≠ "cancelled" ∧ other ≠ "failed") :
    (onInvoiceStatus st status ro).errorVisible = true ∧
    (onInvoiceStatus st status ro).diagErr =
      "error: " ++ ("invoice " ++ status) ∧
    (onInvoiceStatus st status ro).log = st.log ∧
    (onInvoiceStatus st status ro).balanceText = st.balanceText ∧
    onInvoiceStatus st other ro = st := by
  obtain ⟨h1, h2, h3⟩ := ho
  refine ⟨?_, ?_, ?_, ?_, ?_⟩ <;>
    first
    | · rcases h with h | h <;> subst h <;> simp [onInvoiceStatus, setError, showError]
    | · simp [onInvoiceStatus, h1, h2, h3]

/-- Witness for C7 at concrete statuses "cancelled" and "pending". -/
theorem C7_terminal_status_handler_witness :
    (onInvoiceStatus (initialState none) "cancelled"
        (FetchOutcome.success { ok := true, balance := some 3 })).errorVisible
      = true ∧
    onInvoiceStatus (initialState none) "pending"
        (FetchOutcome.success { ok := true, balance := some 3 })
      = initialState none :=
  ⟨(C7_terminal_status_handler (initialState none) _ "cancelled" "pending"
      (Or.inl rfl) (by refine ⟨?_, ?_, ?_⟩ <;> decide)).1,
   (C7_terminal_status_handler (initialState none) _ "cancelled" "pending"
      (Or.inl rfl) (by refine ⟨?_, ?_, ?_⟩ <;> decide)).2.2.2.2⟩

/-- C5: on a successful invoice response, when the host has no
`openInvoice` capability, `createInvoice` opens the link via
`openTelegramLink` as a generic external link; no status handler is
attached (the result does not depend on the host's status deliveries)
and no error is surfaced. -/
theorem C5_fallback_external_link (st : ClientState) (k tok : String)
    (data : InvoiceData) (host : HostBehavior)
    (hs : st.sessionToken = some tok) (ht : tok ≠ "")
    (hok : data.ok = true) (hl : jstruthy data.invoice_link = true)
    (hno : host.hasOpenInvoice = false) :
    createInvoice st k (.success data) host =
      logEvent (logEvent st (.reqInvoice tok k))
        (.openExternalLink (data.invoice_link.getD "")) ∧
    (createInvoice st k (.success data) host).errorVisible = st.errorVisible ∧
    (createInvoice st k (.success data) host).diagErr = st.diagErr ∧
    ∀ ds : List StatusDelivery,
      createInvoice st k (.success data) { host with deliveries := ds } =
        createInvoice st k (.success data) host := by
  have hmain : createInvoice st k (.success data) host =
      logEvent (logEvent st (.reqInvoice tok k))
        (.openExternalLink (data.invoice_link.getD "")) := by
    unfold createInvoice
    rw [hs]
    simp [ht, hok, hl, hno]
  refine ⟨hmain, by rw [hmain]; simp, by rw [hmain]; simp, ?_⟩
  intro ds
  rw [hmain]
  unfold createInvoice
  rw [hs]
  simp [ht, hok, hl, hno]

/-- Witness for C5 at a concrete state and response. -/
theorem C5_fallback_external_link_witness :
    createInvoice { initialState none with sessionToken := some "sess" }
        "pack40"
        (.success { ok := true, invoice_link := some "https://t.me/inv",
                    message := none })
        { hasOpenInvoice := false, openThrows := none, thenable := true,
          deliveries :=
            [{ channel := .callback, status := "paid",
               refreshOutcome := .success { ok := true, balance := some 1 } }] }
      = logEvent
          (logEvent { initialState none with sessionToken := some "sess" }
            (.reqInvoice "sess" "pack40"))
          (.openExternalLink "https://t.me/inv") :=
  (C5_fallback_external_link
      { initialState none with sessionToken := some "sess" } "pack40" "sess"
      { ok := true, invoice_link := some "https://t.me/inv", message := none }
      { hasOpenInvoice := false, openThrows := none, thenable := true,
        deliveries :=
          [{ channel := .callback, status := "paid",
             refreshOutcome := .success { ok := true, balance := some 1 } }] }
      rfl (by decide) rfl rfl rfl).1

/-- C8: when the host context is absent, or its init-data is empty,
`auth` shows the error box, emits no network request and leaves the
rest of the state untouched.  The embedded `auth` is a total function,
so this branch returns normally — no exception escapes. -/
theorem C8_auth_missing_host (st : ClientState) (tg : Option TgCtx)
    (out : AuthFetchOutcome) (storageOk : Bool)
    (h : tg = none ∨ ∃ t, tg = some t ∧ t.initData = "") :
    (auth st tg out storageOk).errorVisible = true ∧
    (auth st tg out storageOk).log = st.log ∧
    (auth st tg out storageOk).sessionToken = st.sessionToken ∧
    (auth st tg out storageOk).storage = st.storage ∧
    (auth st tg out storageOk).balanceText = st.balanceText ∧
    (auth st tg out storageOk).diagErr = st.diagErr := by
  rcases h with h | ⟨t, h, hi⟩
  · subst h
    refine ⟨?_, ?_, ?_, ?_, ?_, ?_⟩ <;> simp [auth]
  · subst h
    refine ⟨?_, ?_, ?_, ?_, ?_, ?_⟩ <;> simp [auth, hi]

/-- Witness for C8: host object present but with empty init-data. -/
theorem C8_auth_missing_host_witness :
    (auth (initialState none)
        (some { initData := "", userId := none, readyExpandThrows := none })
        (.fetchError "unreachable") true).errorVisible = true ∧
    (auth (initialState none)
        (some { initData := "", userId := none, readyExpandThrows := none })
        (.fetchError "unreachable") true).log = (initialState none).log :=
  ⟨(C8_auth_missing_host (initialState none) _ (.fetchError "unreachable") true
      (Or.inr ⟨_, rfl, rfl⟩)).1,
   (C8_auth_missing_host (initialState none) _ (.fetchError "unreachable") true
      (Or.inr ⟨_, rfl, rfl⟩)).2.1⟩

/-- C6: an auth response parsed as JSON with `ok:false` shows the error
box with a diagnostic carrying the server error code (default
"auth_failed") followed by the server message in parentheses when
present, and leaves session token, storage, balance text, referral
field and pack list unchanged. -/
theorem C6_auth_server_failure (st : ClientState) (t : TgCtx)
    (data : AuthData) (storageOk : Bool)
    (hi : t.initData ≠ "") (hok : data.ok = false) :
    (auth st (some t) (.parsed data) storageOk).errorVisible = true ∧
    (auth st (some t) (.parsed data) storageOk).diagErr =
      "error: " ++ (jsOr data.error "auth_failed" ++
        match data.message with
        | some msg => if msg = "" then "" else " (" ++ msg ++ ")"
        | none => "") ∧
    (auth st (some t) (.parsed data) storageOk).sessionToken =
      st.sessionToken ∧
    (auth st (some t) (.parsed data) storageOk).storage = st.storage ∧
    (auth st (some t) (.parsed data) storageOk).balanceText =
      st.balanceText ∧
    (auth st (some t) (.parsed data) storageOk).refLink = st.refLink ∧
    (auth st (some t) (.parsed data) storageOk).packs = st.packs := by
  have hne : jsOr data.error "auth_failed" ++
      (match data.message with
       | some msg => if msg = "" then "" else " (" ++ msg ++ ")"
       | none => "") ≠ "" :=
    append_ne_empty_left _ _ (jsOr_ne_empty _ _ (by decide))
  unfold auth
  simp only [hi]
  cases hre : t.readyExpandThrows <;>
    refine ⟨?_, ?_, ?_, ?_, ?_, ?_, ?_⟩ <;>
      simp [hok, setError, showError, logEvent, hne]

/-- Witness for C6 at a concrete failing auth response. -/
theorem C6_auth_server_failure_witness :
    (auth (initialState none)
        (some { initData := "iddata", userId := some 7,
                readyExpandThrows := none })
        (.parsed { ok := false, error := some "bad_init_data",
                   message := some "signature mismatch", session := none,
                   balance := none, ref_link := none, packages := none,
                   support_link := none }) true).diagErr =
      "error: " ++ ("bad_init_data" ++ " (signature mismatch)") :=
  ((C6_auth_server_failure (initialState none)
      { initData := "iddata", userId := some 7, readyExpandThrows := none }
      { ok := false, error := some "bad_init_data",
        message := some "signature mismatch", session := none,
        balance := none, ref_link := none, packages := none,
        support_link := none } true (by decide) rfl).2.1).trans (by decide)

lemma applyAuthSuccess_display (st : ClientState) (data : AuthData)
    (storageOk : Bool) :
    (applyAuthSuccess st data storageOk).balanceText =
      jsShowNum data.balance ++ " раскладов" ∧
    (applyAuthSuccess st data storageOk).refLink = jsOr data.ref_link "—" ∧
    (applyAuthSuccess st data storageOk).packs = data.packages.getD [] ∧
    (applyAuthSuccess st data storageOk).diagErr = st.diagErr ∧
    (applyAuthSuccess st data storageOk).errorVisible = st.errorVisible ∧
    (applyAuthSuccess st data storageOk).log = st.log := by
  unfold applyAuthSuccess renderPacks
  cases h : jsToOpt data.session with
  | none =>
    cases data.support_link with
    | none => simp
    | some sl => by_cases hsl : sl = "" <;> simp [hsl]
  | some s =>
    cases data.support_link with
    | none => by_cases hk : storageOk <;> simp [hk]
    | some sl =>
      by_cases hk : storageOk <;> by_cases hsl : sl = "" <;> simp [hk, hsl]

lemma applyAuthSuccess_falsy_session (st : ClientState) (data : AuthData)
    (storageOk : Bool) (h : jstruthy data.session = false) :
    (applyAuthSuccess st data storageOk).sessionToken = none ∧
    (applyAuthSuccess st data storageOk).storage = st.storage := by
  have htok : jsToOpt data.session = none := by simp [jsToOpt, h]
  unfold applyAuthSuccess renderPacks
  rw [htok]
  cases data.support_link with
  | none => simp
  | some sl => by_cases hsl : sl = "" <;> simp [hsl]

lemma applyAuthSuccess_truthy_session (st : ClientState) (data : AuthData)
    (h : jstruthy data.session = true) :
    (applyAuthSuccess st data true).storage = data.session := by
  have htok : jsToOpt data.session = data.session := by simp [jsToOpt, h]
  unfold applyAuthSuccess renderPacks
  rw [htok]
  cases hds : data.session with
  | none => rw [hds] at h; simp [jstruthy] at h
  | some s =>
    cases data.support_link with
    | none => simp
    | some sl => by_cases hsl : sl = "" <;> simp [hsl]

/-- C10: an `ok:true` auth response whose session field is absent or
empty still performs the full display update — balance text, referral
field (returned link or em-dash), pack list (default empty) — while the
session stays `null`, so a subsequent `createInvoice` fails fast with
the "no session" error and no invoice request. -/
theorem C10_success_without_session (st : ClientState) (t : TgCtx)
    (data : AuthData) (storageOk : Bool)
    (hi : t.initData ≠ "") (hok : data.ok = true)
    (hs : jstruthy data.session = false) :
    (auth st (some t) (.parsed data) storageOk).balanceText =
      jsShowNum data.balance ++ " раскладов" ∧
    (auth st (some t) (.parsed data) storageOk).refLink =
      jsOr data.ref_link "—" ∧
    (auth st (some t) (.parsed data) storageOk).packs =
      data.packages.getD [] ∧
    (auth st (some t) (.parsed data) storageOk).sessionToken = none ∧
    ∀ (k : String) (out : FetchOutcome InvoiceData) (host : HostBehavior),
      (createInvoice (auth st (some t) (.parsed data) storageOk) k out host).diagErr
          = "error: " ++ "no session" ∧
      (createInvoice (auth st (some t) (.parsed data) storageOk) k out host).errorVisible
          = true ∧
      (createInvoice (auth st (some t) (.parsed data) storageOk) k out host).log
          = (auth st (some t) (.parsed data) storageOk).log := by
  have hmain : ∀ st2 : ClientState,
      (applyAuthSuccess st2 data storageOk).balanceText =
          jsShowNum data.balance ++ " раскладов" ∧
      (applyAuthSuccess st2 data storageOk).refLink =
          jsOr data.ref_link "—" ∧
      (applyAuthSuccess st2 data storageOk).packs = data.packages.getD [] ∧
      (applyAuthSuccess st2 data storageOk).sessionToken = none := by
    intro st2
    obtain ⟨hb, hr, hp, _⟩ := applyAuthSuccess_display st2 data storageOk
    exact ⟨hb, hr, hp, (applyAuthSuccess_falsy_session st2 data storageOk hs).1⟩
  have hauth : auth st (some t) (.parsed data) storageOk =
      applyAuthSuccess
        (logEvent
          (match t.readyExpandThrows with
           | some e => setError (setDiag st (some t)) ("tg init failed: " ++ e)
           | none => setDiag st (some t))
          (.reqAuth t.initData)) data storageOk := by
    unfold auth
    simp only [hi]
    cases t.readyExpandThrows <;> simp [hok]
  rw [hauth]
  obtain ⟨hb, hr, hp, hn⟩ := hmain _
  refine ⟨hb, hr, hp, hn, ?_⟩
  intro k out host
  unfold createInvoice
  rw [hn]
  refine ⟨?_, rfl, rfl⟩
  simp [setError, showError]

/-- Witness for C10: a concrete `ok:true` response with an empty
session string. -/
theorem C10_success_without_session_witness :
    (auth (initialState none)
        (some { initData := "iddata", userId := some 7,
                readyExpandThrows := none })
        (.parsed { ok := true, error := none, message := none,
                   session := some "", balance := some 12,
                   ref_link := some "https://t.me/ref", packages := some [],
                   support_link := none }) true).sessionToken = none :=
  (C10_success_without_session (initialState none)
      { initData := "iddata", userId := some 7, readyExpandThrows := none }
      { ok := true, error := none, message := none, session := some "",
        balance := some 12, ref_link := some "https://t.me/ref",
        packages := some [], support_link := none } true
      (by decide) rfl rfl).2.2.2.1

lemma sessionToken_step_wf (st : ClientState) (o : Op)
    (h : st.sessionToken ≠ some "") : (step st o).sessionToken ≠ some "" := by
  cases o with
  | opAuth tg outcome storageOk => exact sessionToken_auth_wf st tg outcome storageOk h
  | opRefresh outcome => rw [step, sessionToken_refreshBalance]; exact h
  | opInvoice k outcome host => rw [step, sessionToken_createInvoice]; exact h

lemma sessionToken_runOps_wf (ops : List Op) (st : ClientState)
    (h : st.sessionToken ≠ some "") :
    (runOps st ops).sessionToken ≠ some "" := by
  induction ops generalizing st with
  | nil => exact h
  | cons o os ih => exact ih (step st o) (sessionToken_step_wf st o h)

/-- C9: along every execution (any operation sequence from the startup
state) the session token is `null` or a non-empty string; a successful
auth whose session field is absent or empty normalizes it to `null` and
leaves local storage untouched — so the `!sessionToken` guards of
`refreshBalance` and `createInvoice` can never be passed with an
empty-string credential. -/
theorem C9_session_never_empty_string (stored : Option String)
    (ops : List Op) (st : ClientState) (t : TgCtx) (data : AuthData)
    (storageOk : Bool) (hi : t.initData ≠ "") (hok : data.ok = true)
    (hs : jstruthy data.session = false) :
    ((runOps (initialState stored) ops).sessionToken = none ∨
      ∃ tok, (runOps (initialState stored) ops).sessionToken = some tok ∧
        tok ≠ "") ∧
    (auth st (some t) (.parsed data) storageOk).sessionToken = none ∧
    (auth st (some t) (.parsed data) storageOk).storage = st.storage := by
  constructor
  · have hwf := sessionToken_runOps_wf ops (initialState stored) (by simp [initialState])
    cases hrun : (runOps (initialState stored) ops).sessionToken with
    | none => exact Or.inl rfl
    | some tok =>
      refine Or.inr ⟨tok, rfl, ?_⟩
      intro htok
      exact hwf (by rw [hrun, htok])
  · have hauth : auth st (some t) (.parsed data) storageOk =
        applyAuthSuccess
          (logEvent
            (match t.readyExpandThrows with
             | some e => setError (setDiag st (some t)) ("tg init failed: " ++ e)
             | none => setDiag st (some t))
            (.reqAuth t.initData)) data storageOk := by
      unfold auth
      simp only [hi]
      cases t.readyExpandThrows <;> simp [hok]
    rw [hauth]
    obtain ⟨h1, h2⟩ := applyAuthSuccess_falsy_session _ data storageOk hs
    refine ⟨h1, h2.trans ?_⟩
    cases t.readyExpandThrows <;> simp

/-- Witness for C9 at a concrete trace (auth, refresh, purchase) and a
concrete sessionless success response. -/
theorem C9_session_never_empty_string_witness :
    ((runOps (initialState (some "old"))
        [Op.opAuth
            (some { initData := "iddata", userId := none,
                    readyExpandThrows := none })
            (.parsed { ok := true, error := none, message := none,
                       session := some "tok1", balance := some 3,
                       ref_link := none, packages := some [],
                       support_link := none }) true,
          Op.opRefresh (.success { ok := true, balance := some 4 }),
          Op.opInvoice "pack40"
            (.success { ok := true, invoice_link := some "https://t.me/inv",
                        message := none })
            { hasOpenInvoice := true, openThrows := none, thenable := false,
              deliveries :=
                [{ channel := .callback, status := "paid",
                   refreshOutcome :=
                     .success { ok := true, balance := some 5 } }] }
        ]).sessionToken = none ∨
      ∃ tok, (runOps (initialState (some "old"))
        [Op.opAuth
            (some { initData := "iddata", userId := none,
                    readyExpandThrows := none })
            (.parsed { ok := true, error := none, message := none,
                       session := some "tok1", balance := some 3,
                       ref_link := none, packages := some [],
                       support_link := none }) true,
          Op.opRefresh (.success { ok := true, balance := some 4 }),
          Op.opInvoice "pack40"
            (.success { ok := true, invoice_link := some "https://t.me/inv",
                        message := none })
            { hasOpenInvoice := true, openThrows := none, thenable := false,
              deliveries :=
                [{ channel := .callback, status := "paid",
                   refreshOutcome :=
                     .success { ok := true, balance := some 5 } }] }
        ]).sessionToken = some tok ∧ tok ≠ "") ∧
    (auth (initialState none)
        (some { initData := "iddata", userId := none,
                readyExpandThrows := none })
        (.parsed { ok := true, error := none, message := none,
                   session := none, balance := some 3, ref_link := none,
                   packages := some [], support_link := none })
        true).sessionToken = none ∧
    (auth (initialState none)
        (some { initData := "iddata", userId := none,
                readyExpandThrows := none })
        (.parsed { ok := true, error := none, message := none,
                   session := none, balance := some 3, ref_link := none,
                   packages := some [], support_link := none })
        true).storage = (initialState none).storage :=
  C9_session_never_empty_string (some "old") _ (initialState none)
    { initData := "iddata", userId := none, readyExpandThrows := none }
    { ok := true, error := none, message := none, session := none,
      balance := some 3, ref_link := none, packages := some [],
      support_link := none } true (by decide) rfl rfl

lemma countBalanceReqs_append (l1 l2 : List Event) :
    countBalanceReqs (l1 ++ l2) = countBalanceReqs l1 + countBalanceReqs l2 := by
  unfold countBalanceReqs
  rw [List.filter_append, List.length_append]

lemma countBalanceReqs_refreshBalance (st : ClientState) (tok : String)
    (out : FetchOutcome BalanceData) (hs : st.sessionToken = some tok)
    (ht : tok ≠ "") :
    countBalanceReqs (refreshBalance st out).log =
      countBalanceReqs st.log + 1 := by
  unfold refreshBalance
  rw [hs]
  cases out with
  | success data =>
    by_cases hd : data.ok <;>
      simp [ht, hd, countBalanceReqs_append, countBalanceReqs]
  | failure e => simp [ht, countBalanceReqs_append, countBalanceReqs]

lemma countBalanceReqs_onInvoiceStatus (st : ClientState) (tok status : String)
    (ro : FetchOutcome BalanceData) (hs : st.sessionToken = some tok)
    (ht : tok ≠ "") :
    countBalanceReqs (onInvoiceStatus st status ro).log =
      countBalanceReqs st.log + (if status = "paid" then 1 else 0) := by
  unfold onInvoiceStatus
  by_cases hp : status = "paid"
  · simp only [hp, if_true]
    exact countBalanceReqs_refreshBalance st tok ro hs ht
  · simp only [hp, if_false]
    split <;> simp

lemma countBalanceReqs_processDeliveries (thenable : Bool)
    (ds : List StatusDelivery) (st : ClientState) (tok : String)
    (hs : st.sessionToken = some tok) (ht : tok ≠ "") :
    countBalanceReqs (processDeliveries thenable st ds).log =
      countBalanceReqs st.log + countPaidProcessed thenable ds := by
  induction ds generalizing st with
  | nil => simp [processDeliveries, countPaidProcessed]
  | cons d ds ih =>
    have hstep :
        countBalanceReqs
            (match d.channel with
             | Channel.callback => onInvoiceStatus st d.status d.refreshOutcome
             | Channel.promise =>
                 if thenable then onInvoiceStatus st d.status d.refreshOutcome
                 else st).log =
          countBalanceReqs st.log +
            (if d.status = "paid" ∧ (d.channel = .callback ∨ thenable)
             then 1 else 0) ∧
        (match d.channel with
         | Channel.callback => onInvoiceStatus st d.status d.refreshOutcome
         | Channel.promise =>
             if thenable then onInvoiceStatus st d.status d.refreshOutcome
             else st).sessionToken = some tok := by
      cases hc : d.channel with
      | callback =>
        constructor
        · rw [countBalanceReqs_onInvoiceStatus st tok _ _ hs ht]
          by_cases hp : d.status = "paid" <;> simp [hp]
        · rw [sessionToken_onInvoiceStatus]; exact hs
      | promise =>
        by_cases hth : thenable
        · constructor
          · rw [if_pos hth, countBalanceReqs_onInvoiceStatus st tok _ _ hs ht]
            by_cases hp : d.status = "paid" <;> simp [hp, hth]
          · rw [if_pos hth, sessionToken_onInvoiceStatus]; exact hs
        · constructor
          · rw [if_neg hth]
            by_cases hp : d.status = "paid" <;> simp [hp, hth]
          · rw [if_neg hth]; exact hs
    show countBalanceReqs (processDeliveries thenable _ ds).log = _
    rw [ih _ hstep.2, hstep.1]
    show _ = countBalanceReqs st.log +
      ((if d.status = "paid" ∧ (d.channel = .callback ∨ thenable)
        then 1 else 0) + countPaidProcessed thenable ds)
    rw [Nat.add_assoc]

/-- The claim of C2 fails on the code: when `openInvoice` returns a
thenable, `createInvoice` installs the status handler twice — as the
callback and as a `.then` handler — so a host that delivers the "paid"
status through both channels triggers two balance-refresh requests, not
exactly one. -/
theorem C2_counterexample :
    countBalanceReqs
        ((createInvoice { initialState none with sessionToken := some "sess" }
            "pack40"
            (.success { ok := true, invoice_link := some "https://t.me/inv",
                        message := none })
            { hasOpenInvoice := true, openThrows := none, thenable := true,
              deliveries :=
                [{ channel := .callback, status := "paid",
                   refreshOutcome :=
                     .success { ok := true, balance := some 5 } },
                 { channel := .promise, status := "paid",
                   refreshOutcome :=
                     .success { ok := true, balance := some 5 } }] }).log)
        = 2 ∧
    countBalanceReqs
        ((createInvoice { initialState none with sessionToken := some "sess" }
            "pack40"
            (.success { ok := true, invoice_link := some "https://t.me/inv",
                        message := none })
            { hasOpenInvoice := true, openThrows := none, thenable := true,
              deliveries :=
                [{ channel := .callback, status := "paid",
                   refreshOutcome :=
                     .success { ok := true, balance := some 5 } },
                 { channel := .promise, status := "paid",
                   refreshOutcome :=
                     .success { ok := true, balance := some 5 } }] }).log)
        ≠ 1 := by
  constructor
  · rfl
  · decide

/-- C2 as amended: with a session present and a successful invoice
response opened through `openInvoice` without throwing, the number of
balance-refresh requests issued equals the number of "paid" deliveries
that reach an installed handler (the callback always, the promise
handler only when the return value is thenable): exactly one when the
host delivers "paid" through exactly one installed channel, and one per
delivery — two — when it delivers through both. -/
theorem C2_amended_refresh_per_paid_delivery (st : ClientState)
    (k tok : String) (data : InvoiceData) (host : HostBehavior)
    (hs : st.sessionToken = some tok) (ht : tok ≠ "")
    (hok : data.ok = true) (hl : jstruthy data.invoice_link = true)
    (hoi : host.hasOpenInvoice = true) (hnt : host.openThrows = none) :
    countBalanceReqs (createInvoice st k (.success data) host).log =
      countBalanceReqs st.log +
        countPaidProcessed host.thenable host.deliveries := by
  unfold createInvoice
  rw [hs]
  simp only [ht, hok, hl, hoi, hnt, Bool.not_true, Bool.false_eq_true,
    or_self, if_false, ite_false]
  rw [countBalanceReqs_processDeliveries host.thenable host.deliveries _ tok
    (by simp [hs]) ht]
  simp [countBalanceReqs_append, countBalanceReqs]

/-- Witness for the amended C2: a single "paid" delivery via the
callback issues exactly one balance request. -/
theorem C2_amended_refresh_per_paid_delivery_witness :
    countBalanceReqs
        ((createInvoice { initialState none with sessionToken := some "sess" }
            "pack40"
            (.success { ok := true, invoice_link := some "https://t.me/inv",
                        message := none })
            { hasOpenInvoice := true, openThrows := none, thenable := false,
              deliveries :=
                [{ channel := .callback, status := "paid",
                   refreshOutcome :=
                     .success { ok := true, balance := some 5 } }] }).log)
      = countBalanceReqs
          ({ initialState none with sessionToken := some "sess" } :
            ClientState).log +
        countPaidProcessed false
          [{ channel := .callback, status := "paid",
             refreshOutcome := .success { ok := true, balance := some 5 } }] :=
  C2_amended_refresh_per_paid_delivery
    { initialState none with sessionToken := some "sess" } "pack40" "sess"
    { ok := true, invoice_link := some "https://t.me/inv", message := none }
    { hasOpenInvoice := true, openThrows := none, thenable := false,
      deliveries :=
        [{ channel := .callback, status := "paid",
           refreshOutcome := .success { ok := true, balance := some 5 } }] }
    rfl (by decide) rfl rfl rfl rfl

/-- The claim of C3 fails on the code: the script never reads the
`astra_session` storage slot.  At a startup with a previously stored
session value ("stored-token") the session variable is initialized to
`null`, stays `null` when the startup auth cannot succeed, and the
balance operation then silently does nothing instead of proceeding on
the stored credential. -/
theorem C3_counterexample :
    (initialState (some "stored-token")).sessionToken = none ∧
    (initialState (some "stored-token")).sessionToken ≠ some "stored-token" ∧
    (auth (initialState (some "stored-token")) none (.fetchError "offline")
        true).sessionToken = none ∧
    refreshBalance
        (auth (initialState (some "stored-token")) none (.fetchError "offline")
          true)
        (.success { ok := true, balance := some 9 }) =
      auth (initialState (some "stored-token")) none (.fetchError "offline")
        true :=
  ⟨rfl, by decide, rfl, rfl⟩

/-- C3 as amended: the session token is written to the `astra_session`
storage slot on a successful auth with a truthy session (best-effort),
but the stored value is never read back — every startup initializes the
session credential to `null` regardless of what storage holds, and
balance operations silently do nothing until a new successful auth. -/
theorem C3_amended_storage_write_only (stored : Option String)
    (st : ClientState) (t : TgCtx) (data : AuthData)
    (out : FetchOutcome BalanceData)
    (hi : t.initData ≠ "") (hok : data.ok = true)
    (hs : jstruthy data.session = true) :
    (initialState stored).sessionToken = none ∧
    refreshBalance (initialState stored) out = initialState stored ∧
    (auth st (some t) (.parsed data) true).storage = data.session := by
  refine ⟨rfl, rfl, ?_⟩
  have hauth : auth st (some t) (.parsed data) true =
      applyAuthSuccess
        (logEvent
          (match t.readyExpandThrows with
           | some e => setError (setDiag st (some t)) ("tg init failed: " ++ e)
           | none => setDiag st (some t))
          (.reqAuth t.initData)) data true := by
    unfold auth
    simp only [hi]
    cases t.readyExpandThrows <;> simp [hok]
  rw [hauth, applyAuthSuccess_truthy_session _ data hs]

/-- Witness for the amended C3 at a concrete stored value and a
concrete successful auth. -/
theorem C3_amended_storage_write_only_witness :
    (initialState (some "old-token")).sessionToken = none ∧
    refreshBalance (initialState (some "old-token"))
        (.success { ok := true, balance := some 2 }) =
      initialState (some "old-token") ∧
    (auth (initialState (some "old-token"))
        (some { initData := "iddata", userId := none,
                readyExpandThrows := none })
        (.parsed { ok := true, error := none, message := none,
                   session := some "fresh-token", balance := some 2,
                   ref_link := none, packages := some [],
                   support_link := none }) true).storage =
      some "fresh-token" :=
  C3_amended_storage_write_only (some "old-token")
    (initialState (some "old-token"))
    { initData := "iddata", userId := none, readyExpandThrows := none }
    { ok := true, error := none, message := none,
      session := some "fresh-token", balance := some 2, ref_link := none,
      packages := some [], support_link := none }
    (.success { ok := true, balance := some 2 }) (by decide) rfl rfl

/-- The claim of C4 fails on the code: `refreshBalance` handles an
application-level `ok:false` response with no action at all — the
diagnostic line stays untouched (here, its startup value ""), so no
diagnostic message is surfaced. -/
theorem C4_counterexample :
    (refreshBalance { initialState none with sessionToken := some "sess" }
        (.success { ok := false, balance := some 7 })).diagErr = "" ∧
    (refreshBalance { initialState none with sessionToken := some "sess" }
        (.success { ok := false, balance := some 7 })).diagErr =
      ({ initialState none with
          sessionToken := some "sess" } : ClientState).diagErr ∧
    (refreshBalance { initialState none with sessionToken := some "sess" }
        (.success { ok := false, balance := some 7 })).errorVisible = false :=
  ⟨rfl, rfl, rfl⟩

/-- C4 as amended: with a session present, a transport or parse error
surfaces the "balance refresh failed" diagnostic and leaves the
displayed balance, the session token and the error-box visibility
unchanged; an application-level `ok:false` response is silently
ignored — the state changes only by the logged balance request, with no
diagnostic and no balance change.  In every failing outcome the session
token is unchanged, so further operations remain possible. -/
theorem C4_amended_refresh_failures (st : ClientState) (tok e : String)
    (d : BalanceData) (hs : st.sessionToken = some tok) (ht : tok ≠ "")
    (hd : d.ok = false) :
    (refreshBalance st (.failure e)).diagErr =
      "error: " ++ ("balance refresh failed: " ++ e) ∧
    (refreshBalance st (.failure e)).balanceText = st.balanceText ∧
    (refreshBalance st (.failure e)).sessionToken = st.sessionToken ∧
    (refreshBalance st (.failure e)).errorVisible = st.errorVisible ∧
    refreshBalance st (.success d) = logEvent st (.reqBalance tok) := by
  have hne : ("balance refresh failed: " ++ e) ≠ "" :=
    append_ne_empty_left _ _ (by decide)
  unfold refreshBalance
  rw [hs]
  refine ⟨?_, ?_, ?_, ?_, ?_⟩ <;> simp [ht, hd, setError, hne, hs]

/-- Witness for the amended C4 at a concrete state, a concrete network
error and a concrete `ok:false` response. -/
theorem C4_amended_refresh_failures_witness :
    (refreshBalance { initialState none with sessionToken := some "sess" }
        (.failure "Failed to fetch")).diagErr =
      "error: " ++ ("balance refresh failed: " ++ "Failed to fetch") ∧
    refreshBalance { initialState none with sessionToken := some "sess" }
        (.success { ok := false, balance := some 7 }) =
      logEvent { initialState none with sessionToken := some "sess" }
        (.reqBalance "sess") :=
  ⟨(C4_amended_refresh_failures
      { initialState none with sessionToken := some "sess" } "sess"
      "Failed to fetch" { ok := false, balance := some 7 } rfl (by decide)
      rfl).1,
   (C4_amended_refresh_failures
      { initialState none with sessionToken := some "sess" } "sess"
      "Failed to fetch" { ok := false, balance := some 7 } rfl (by decide)
      rfl).2.2.2.2⟩

end AstraClient

